import Mathlib

/-!
Verification of the sequential multi-operation runner of the pymongo-operation-suite
backend (`src/backend/app.py` and `src/backend/database.py`).

The runner (`run_all_operations`, the `/api/run_all` endpoint) iterates a hard-coded
catalog of (name, endpoint, payload) triples, invokes each operation's HTTP endpoint,
records an execution-result entry per operation, and emits progress events over a
socket.  We embed the runner shallowly: the HTTP transport and the wall clock are
abstracted into an environment giving, for each 1-based catalog index, the outcome of
the self-addressed HTTP call (a response with status code and parsed JSON body, or a
raised exception) and the measured elapsed milliseconds.  Everything the runner itself
computes — result entries, the summary, the event stream — is modelled exactly as in
the source.
-/

set_option autoImplicit false

namespace PymongoSuite

/-- JSON values, as produced by `request.get_json()` / `response.json()` in the source.
Objects keep insertion order as an association list, matching Python dicts. -/
inductive Json where
  | null
  | bool (b : Bool)
  | num (n : Int)
  | str (s : String)
  | arr (items : List Json)
  | obj (pairs : List (String × Json))

/-- Python `d.get(key)` on a parsed JSON object: first binding of `key`, if any.
Python returns `None` both for an absent key and for a stored JSON `null`;
callers in the source never distinguish the two. -/
def getField (fields : List (String × Json)) (key : String) : Option Json :=
  match fields with
  | [] => none
  | (k, v) :: rest => if k = key then some v else getField rest key

/-- One entry of the operation catalog `test_operations` in `run_all_operations`:
a `(op_name, endpoint, payload)` triple. -/
structure OpDescriptor where
  name : String
  endpoint : String
  payload : Json

/-- Outcome of one self-addressed HTTP call made by `execute_operation`:
either a response (status code plus parsed JSON body; an empty body stands for
`response.text` being empty, where the source substitutes `{}`), or an exception
raised by the invocation, carrying `str(e)`. -/
inductive Invocation where
  | respond (status_code : Nat) (body : List (String × Json))
  | raise (e : String)

/-- A `result_entry` dict built by `execute_operation`.  `result` is the value of the
`result` key (`None` collapses with key-absent, as with `dict.get`); `error` is the
value of the `error` key when present. -/
structure ResultEntry where
  operation : String
  success : Bool
  result : Option Json
  error : Option Json
  execution_time_ms : Nat

/-- The `summary` dict computed by `run_all_operations` after the loop. -/
structure RunSummary where
  total_operations : Nat
  successful : Nat
  failed : Nat
  total_time_ms : Nat
deriving DecidableEq, Repr

/-- A `socketio.emit('progress', ...)` payload, by its `type` field.  The fields are
those the source puts into each dict; `operation_complete` carries an `error` key only
in the exception branch of `execute_operation`. -/
inductive ProgressEvent where
  | start (total : Nat) (message : String)
  | operation_start (operation : String) (current : Nat) (total : Nat) (message : String)
  | operation_complete (operation : String) (success : Bool) (current : Nat) (total : Nat)
      (execution_time_ms : Nat) (error : Option String) (message : String)
  | complete (summary : RunSummary) (message : String)
deriving DecidableEq

/-- The inner function `execute_operation(index, op_name, endpoint, payload)` of `app.py`.
`inv` is the outcome of the HTTP self-call and `op_time_ms` the measured elapsed
milliseconds (the wall clock is abstracted; Python's float rounding is dropped with
it).  Returns the `result_entry`, the progress events emitted for this operation
(in emission order), and the updated `completed` counter.  Both branches append
exactly one entry and emit exactly one `operation_complete`; no path re-raises. -/
def execute_operation (total_ops : Nat) (index : Nat) (op : OpDescriptor)
    (inv : Invocation) (op_time_ms : Nat) (completed : Nat) :
    ResultEntry × List ProgressEvent × Nat :=
  let startEv := ProgressEvent.operation_start op.name index total_ops
      ("Executing " ++ op.name ++ "...")
  match inv with
  | Invocation.respond status body =>
      let entry : ResultEntry :=
        { operation := op.name
          success := status == 200
          result := if status == 200 then getField body "result" else none
          error := if status == 200 then none
                   else some ((getField body "error").getD
                      (Json.str ("HTTP " ++ toString status)))
          execution_time_ms := op_time_ms }
      let doneEv := ProgressEvent.operation_complete op.name (status == 200)
          (completed + 1) total_ops op_time_ms none
          ((if status == 200 then "✓" else "✗") ++ " " ++ op.name ++
            " completed in " ++ toString op_time_ms ++ "ms")
      (entry, [startEv, doneEv], completed + 1)
  | Invocation.raise e =>
      let entry : ResultEntry :=
        { operation := op.name
          success := false
          result := none
          error := some (Json.str e)
          execution_time_ms := op_time_ms }
      let doneEv := ProgressEvent.operation_complete op.name false
          (completed + 1) total_ops op_time_ms (some e)
          ("✗ " ++ op.name ++ " failed: " ++ e.take 50)
      (entry, [startEv, doneEv], completed + 1)

/-- The sequential loop `for index, (op_name, endpoint, payload) in
enumerate(test_operations, 1): execute_operation(...)` — one operation at a time, in
catalog order, threading the `completed` counter; `env` supplies each call's HTTP
outcome and elapsed time by 1-based index.  Returns the accumulated `results` list and
the per-operation progress events in emission order.  (The loop's own `try/except`
only prints: `execute_operation` already handles every exception internally.) -/
def run_catalog (env : Nat → Invocation × Nat) (total_ops : Nat) :
    List OpDescriptor → Nat → Nat → List ResultEntry × List ProgressEvent
  | [], _, _ => ([], [])
  | op :: rest, index, completed =>
      let step := execute_operation total_ops index op (env index).1 (env index).2 completed
      let restOut := run_catalog env total_ops rest (index + 1) step.2.2
      (step.1 :: restOut.1, step.2.1 ++ restOut.2)

/-- The summary computation after the loop: `successful = sum(1 for r in results if
r["success"])`, `failed = len(results) - successful`, `total_operations = len(results)`. -/
def summarize (results : List ResultEntry) (total_time_ms : Nat) : RunSummary :=
  let successful := (results.filter (·.success)).length
  { total_operations := results.length
    successful := successful
    failed := results.length - successful
    total_time_ms := total_time_ms }

/-- The JSON body returned by `/api/run_all` plus the emitted event stream. -/
structure RunOutput where
  success : Bool
  summary : RunSummary
  results : List ResultEntry
  events : List ProgressEvent

/-- The endpoint handler `run_all_operations` of `app.py`, over an arbitrary catalog `ops`:
best-effort pre-run clear (`try: db_ops.clear_collection() except: pass` — the
collaborator's outcome `clearOutcome` is discarded in both cases), a `start` event,
the strictly sequential loop, the summary, and a final `complete` event.
`total_time_ms` abstracts the run's wall-clock total. -/
def run_all_operations (ops : List OpDescriptor) (clearOutcome : Except String Json)
    (env : Nat → Invocation × Nat) (total_time_ms : Nat) : RunOutput :=
  let _ := match clearOutcome with
    | Except.ok _ => ()
    | Except.error _ => ()
  let total_ops := ops.length
  let startEv := ProgressEvent.start total_ops
      ("Starting sequential execution of " ++ toString total_ops ++ " operations...")
  let out := run_catalog env total_ops ops 1 0
  let summary := summarize out.1 total_time_ms
  let completeEv := ProgressEvent.complete summary
      ("Completed! " ++ toString summary.successful ++ "/" ++ toString out.1.length ++
        " operations succeeded in " ++ toString total_time_ms ++ "ms")
  { success := true
    summary := summary
    results := out.1
    events := startEv :: out.2 ++ [completeEv] }

/-- The hard-coded catalog `test_operations` of `run_all_operations` (`app.py`
lines 603–728), transcribed entry by entry in source order: `(op_name, endpoint,
payload)`.  The deprecated `group` operation is commented out in the source
("Skipping group as it's not supported in modern MongoDB versions") and thus absent. -/
def test_operations : List OpDescriptor := [
  -- 1. INSERT OPERATIONS (4 methods)
  ⟨"insert_one", "/api/insert_one", .obj [("document", .obj [
    ("name", .str "Alice Johnson"), ("age", .num 30), ("email", .str "alice@example.com"),
    ("status", .str "active"), ("department", .str "Engineering"), ("salary", .num 85000),
    ("tags", .arr [.str "python", .str "mongodb"])])]⟩,
  ⟨"insert_many", "/api/insert_many", .obj [("documents", .arr [
    .obj [("name", .str "Bob Smith"), ("age", .num 25), ("email", .str "bob@example.com"),
      ("status", .str "active"), ("department", .str "Marketing"), ("salary", .num 65000)],
    .obj [("name", .str "Charlie Brown"), ("age", .num 35), ("email", .str "charlie@example.com"),
      ("status", .str "inactive"), ("department", .str "Engineering"), ("salary", .num 95000)],
    .obj [("name", .str "Diana Ross"), ("age", .num 28), ("email", .str "diana@example.com"),
      ("status", .str "active"), ("department", .str "Sales"), ("salary", .num 72000)],
    .obj [("name", .str "Edward Chen"), ("age", .num 42), ("email", .str "edward@example.com"),
      ("status", .str "active"), ("department", .str "Engineering"), ("salary", .num 120000)],
    .obj [("name", .str "Fiona Garcia"), ("age", .num 31), ("email", .str "fiona@example.com"),
      ("status", .str "active"), ("department", .str "HR"), ("salary", .num 68000)]])]⟩,
  ⟨"insert", "/api/insert", .obj [("document", .obj [
    ("name", .str "George Wilson"), ("age", .num 45), ("department", .str "Finance"),
    ("salary", .num 110000)])]⟩,
  ⟨"save", "/api/save", .obj [("document", .obj [
    ("name", .str "Hannah Lee"), ("age", .num 33), ("department", .str "Engineering"),
    ("salary", .num 92000)])]⟩,
  -- 2. FIND OPERATIONS (6 methods)
  ⟨"find", "/api/find", .obj [
    ("filter", .obj [("status", .str "active"), ("salary", .obj [("$gte", .num 70000)])]),
    ("limit", .num 50)]⟩,
  ⟨"find_one", "/api/find_one", .obj [("filter", .obj [("$or", .arr [
    .obj [("age", .obj [("$gte", .num 40)])],
    .obj [("salary", .obj [("$gte", .num 100000)])]])])]⟩,
  ⟨"find_one_and_delete", "/api/find_one_and_delete", .obj [
    ("filter", .obj [("status", .str "inactive")])]⟩,
  ⟨"find_one_and_replace", "/api/find_one_and_replace", .obj [
    ("filter", .obj [("email", .str "diana@example.com")]),
    ("replacement", .obj [("name", .str "Diana Ross-Smith"), ("age", .num 29),
      ("email", .str "diana@example.com"), ("status", .str "active"),
      ("department", .str "Sales"), ("salary", .num 82000)])]⟩,
  ⟨"find_one_and_update", "/api/find_one_and_update", .obj [
    ("filter", .obj [("department", .str "Sales")]),
    ("update", .obj [("$set", .obj [("last_activity", .str "2024-12-09")])])]⟩,
  ⟨"find_and_modify", "/api/find_and_modify", .obj [
    ("filter", .obj [("salary", .obj [("$gte", .num 100000)])]),
    ("update", .obj [("$set", .obj [("high_earner", .bool true)])])]⟩,
  -- 3. UPDATE OPERATIONS (4 methods)
  ⟨"update_one", "/api/update_one", .obj [
    ("filter", .obj [("name", .str "Alice Johnson")]),
    ("update", .obj [("$set", .obj [("status", .str "senior")]),
      ("$inc", .obj [("salary", .num 15000)])])]⟩,
  ⟨"update_many", "/api/update_many", .obj [
    ("filter", .obj [("department", .str "Engineering")]),
    ("update", .obj [("$set", .obj [("review_pending", .bool true)])])]⟩,
  ⟨"update", "/api/update", .obj [
    ("filter", .obj [("name", .str "Bob Smith")]),
    ("update", .obj [("$set", .obj [("address", .str "San Francisco")])])]⟩,
  ⟨"replace_one", "/api/replace_one", .obj [
    ("filter", .obj [("name", .str "Fiona Garcia")]),
    ("replacement", .obj [("name", .str "Fiona Garcia"), ("age", .num 32),
      ("department", .str "HR"), ("salary", .num 75000), ("promoted", .bool true)])]⟩,
  -- 4. DELETE OPERATIONS (3 methods)
  ⟨"delete_one", "/api/delete_one", .obj [("filter", .obj [("status", .str "temporary")])]⟩,
  ⟨"delete_many", "/api/delete_many", .obj [("filter", .obj [("department", .str "Intern")])]⟩,
  ⟨"remove", "/api/remove", .obj [("filter", .obj [("name", .str "NonExistent User")])]⟩,
  -- 5. COUNT OPERATIONS (3 methods)
  ⟨"count_documents", "/api/count_documents", .obj [
    ("filter", .obj [("department", .str "Engineering")])]⟩,
  ⟨"estimated_document_count", "/api/estimated_document_count", .obj []⟩,
  ⟨"count", "/api/count", .obj [("filter", .obj [("salary", .obj [("$gte", .num 80000)])])]⟩,
  -- 6. AGGREGATION OPERATIONS (group is skipped in the source)
  ⟨"aggregate", "/api/aggregate", .obj [("pipeline", .arr [
    .obj [("$match", .obj [("status", .str "active")])],
    .obj [("$group", .obj [("_id", .str "$department"),
      ("avg_salary", .obj [("$avg", .str "$salary")]),
      ("count", .obj [("$sum", .num 1)])])],
    .obj [("$sort", .obj [("avg_salary", .num (-1))])]])]⟩,
  ⟨"map_reduce", "/api/map_reduce", .obj [
    ("map", .str "function() \x7b emit(this.department, this.salary); \x7d"),
    ("reduce", .str "function(key, values) \x7b return Array.sum(values); \x7d"),
    ("out", .str "salary_by_dept")]⟩,
  ⟨"inline_map_reduce", "/api/inline_map_reduce", .obj [
    ("map", .str "function() \x7b emit(this.department, 1); \x7d"),
    ("reduce", .str "function(key, values) \x7b return Array.sum(values); \x7d")]⟩,
  -- 7. INDEX OPERATIONS (6 methods) - ORDER MATTERS: create first, drop after
  ⟨"create_index", "/api/create_index", .obj [
    ("keys", .arr [.arr [.str "email", .num 1]])]⟩,
  ⟨"create_indexes", "/api/create_indexes", .obj [("indexes", .arr [
    .obj [("keys", .arr [.arr [.str "department", .num 1], .arr [.str "salary", .num (-1)]])],
    .obj [("keys", .arr [.arr [.str "status", .num 1]])]])]⟩,
  ⟨"ensure_index", "/api/ensure_index", .obj [
    ("keys", .arr [.arr [.str "age", .num 1]])]⟩,
  ⟨"reindex", "/api/reindex", .obj []⟩,
  ⟨"drop_index", "/api/drop_index", .obj [("index_name", .str "email_1")]⟩,
  ⟨"drop_indexes", "/api/drop_indexes", .obj []⟩,
  -- 8. COLLECTION OPERATIONS
  ⟨"distinct", "/api/distinct", .obj [("field", .str "department")]⟩,
  ⟨"rename", "/api/rename", .obj [("new_name", .str "test_collection_backup")]⟩,
  -- 9. BULK OPERATIONS (1 method)
  ⟨"bulk_write", "/api/bulk_write", .obj [("operations", .arr [
    .obj [("insertOne", .obj [("document", .obj [("name", .str "Bulk User 1"),
      ("age", .num 25), ("department", .str "Temp")])])],
    .obj [("updateOne", .obj [("filter", .obj [("name", .str "Bulk User 1")]),
      ("update", .obj [("$set", .obj [("bulk_tested", .bool true)])])])],
    .obj [("deleteOne", .obj [("filter", .obj [("name", .str "Bulk User 1")])])]])]⟩,
  -- 10. DROP COLLECTION (last - recreate collection for next run)
  ⟨"drop", "/api/drop", .obj []⟩]

/-- The catalog's operation names, in catalog order. -/
def catalog_names : List String := test_operations.map OpDescriptor.name

/-- The `operations` dict returned by the `/api/operations` endpoint
(`list_operations`, `app.py` lines 566–580): the supported operation names by group. -/
def list_operations : List (String × List String) := [
  ("insert", ["insert_one", "insert_many", "insert", "save"]),
  ("find", ["find", "find_one", "find_one_and_delete", "find_one_and_replace",
    "find_one_and_update", "find_and_modify"]),
  ("update", ["update_one", "update_many", "update", "replace_one"]),
  ("delete", ["delete_one", "delete_many", "remove"]),
  ("count", ["count", "count_documents", "estimated_document_count"]),
  ("aggregation", ["aggregate", "group", "map_reduce", "inline_map_reduce"]),
  ("index", ["create_index", "create_indexes", "ensure_index", "drop_index",
    "drop_indexes", "reindex"]),
  ("collection", ["distinct", "rename", "drop"]),
  ("bulk", ["bulk_write"])]

/-- The hard-coded `"total": 35` field of the `/api/operations` response. -/
def list_operations_total : Nat := 35

/-- All supported operation names advertised by `/api/operations`. -/
def supported_operation_names : List String := (list_operations.map Prod.snd).flatten

/-! ### Structural-ordering constraints on the catalog

The spec's glossary defines a structural operation as one that changes
collection-level metadata (indexes, name, existence) rather than document content.
The predicates below formalize the ordering constraints claimed of the catalog;
they are stated over the list of operation names. -/

/-- Names of structural operations: the six index operations plus rename and drop
(spec glossary: operations changing collection-level metadata). -/
def structural_names : List String :=
  ["create_index", "create_indexes", "ensure_index", "drop_index", "drop_indexes",
   "reindex", "rename", "drop"]

/-- Index-creation operation names. -/
def index_creation_names : List String := ["create_index", "create_indexes", "ensure_index"]

/-- Index-removal operation names. -/
def index_removal_names : List String := ["drop_index", "drop_indexes"]

/-- All index-operation names. -/
def index_op_names : List String :=
  ["create_index", "create_indexes", "ensure_index", "reindex", "drop_index", "drop_indexes"]

/-- Every position holding a name satisfying `p` comes strictly before every position
holding a name satisfying `q`. -/
def precedes (names : List String) (p q : String → Bool) : Bool :=
  names.enum.all fun ia =>
    names.enum.all fun jb => !(p ia.2 && q jb.2) || ia.1 < jb.1

/-- The ordering constraints exactly as the claim states them: all non-structural
operations before all structural ones; index creation before index removal; all index
operations before rename; rename before drop; and nothing after rename except drop. -/
def catalog_obeys_claimed_constraints (names : List String) : Bool :=
  precedes names (fun n => !structural_names.contains n) structural_names.contains &&
  precedes names index_creation_names.contains index_removal_names.contains &&
  precedes names index_op_names.contains (· == "rename") &&
  precedes names (· == "rename") (· == "drop") &&
  (names.enum.all fun ia => names.enum.all fun jb =>
    !(ia.2 == "rename" && ia.1 < jb.1) || jb.2 == "drop")

/-- The ordering constraints the catalog actually obeys: non-structural operations
other than `distinct` and `bulk_write` precede all structural ones; `distinct` comes
after the index operations and before rename; index creation precedes index removal;
all index operations precede rename; rename precedes drop; and the only operations
after rename are `bulk_write` and `drop`, with drop last. -/
def catalog_obeys_actual_constraints (names : List String) : Bool :=
  precedes names
    (fun n => !structural_names.contains n && n != "distinct" && n != "bulk_write")
    structural_names.contains &&
  precedes names index_op_names.contains (· == "distinct") &&
  precedes names (· == "distinct") (· == "rename") &&
  precedes names index_creation_names.contains index_removal_names.contains &&
  precedes names index_op_names.contains (· == "rename") &&
  precedes names (· == "rename") (· == "bulk_write") &&
  precedes names (· == "bulk_write") (· == "drop") &&
  (names.enum.all fun ia => names.enum.all fun jb =>
    !(ia.2 == "rename" && ia.1 < jb.1) || (jb.2 == "bulk_write" || jb.2 == "drop")) &&
  names.getLast? == some "drop"

/-! ### The endpoint envelope and the shared collection handle -/

/-- The endpoint `api_insert_one` (`app.py` lines 83–92): on success the endpoint returns HTTP 200
with body `{"success": true, "data": result}` — the driver's reported result is placed
under the `data` key; on an exception it returns HTTP 500 with
`{"success": false, "error": str(e)}`.  Every operation endpoint uses this envelope. -/
def api_insert_one (driverResult : Except String Json) : Nat × List (String × Json) :=
  match driverResult with
  | Except.ok result => (200, [("success", Json.bool true), ("data", result)])
  | Except.error e => (500, [("success", Json.bool false), ("error", Json.str e)])

/-- The mutable state of the process-wide `MongoDBOperations` instance (`database.py`):
the shared collection handle, identified by the name of the collection it points at
(client and database are fixed for the process). -/
structure MongoDBOperations where
  collection : String
deriving DecidableEq

/-- Every method of `MongoDBOperations` invokes `self.collection.<method>`: the
collection an operation targets is the one the shared handle currently points at. -/
def MongoDBOperations.operation_target (st : MongoDBOperations) : String := st.collection

/-- The method `MongoDBOperations.rename` (`database.py` lines 388–396): calls
`self.collection.rename(new_name)` — `renameCall` is the collaborator's outcome, and
an error propagates as an exception — then, on success, reassigns the shared handle:
`self.collection = self.db[new_name]`. -/
def MongoDBOperations.rename (st : MongoDBOperations) (new_name : String)
    (renameCall : Except String Unit) : Except String (MongoDBOperations × Json) :=
  match renameCall with
  | Except.error e => Except.error e
  | Except.ok _ =>
      Except.ok ({ st with collection := new_name },
        Json.obj [("operation", Json.str "rename"), ("new_name", Json.str new_name)])

/-- The method `MongoDBOperations.drop` (`database.py` lines 398–405): calls
`self.collection.drop()` and reports; it does not itself touch the handle. -/
def MongoDBOperations.drop (st : MongoDBOperations) (dropCall : Except String Unit) :
    Except String (MongoDBOperations × Json) :=
  match dropCall with
  | Except.error e => Except.error e
  | Except.ok _ =>
      Except.ok (st,
        Json.obj [("operation", Json.str "drop"), ("status", Json.str "collection dropped")])

/-- The endpoint `api_drop` (`app.py` lines 498–507): calls `db_ops.drop()` and then, on success,
always resets the shared handle with `db_ops.collection = db_ops.db['test_collection']`;
on an exception the handle is left unchanged and HTTP 500 is returned.
Returns the final state, the HTTP status code, and the envelope's success flag. -/
def api_drop (st : MongoDBOperations) (dropCall : Except String Unit) :
    MongoDBOperations × Nat × Bool :=
  match st.drop dropCall with
  | Except.error _e => (st, 500, false)
  | Except.ok (st', _data) => ({ st' with collection := "test_collection" }, 200, true)

/-! ### Helper lemmas -/

/-- The operation name a progress event refers to (`start`/`complete` refer to none). -/
def eventOperation : ProgressEvent → Option String
  | ProgressEvent.operation_start op _ _ _ => some op
  | ProgressEvent.operation_complete op _ _ _ _ _ _ => some op
  | _ => none

theorem execute_operation_fst_operation (t i : Nat) (op : OpDescriptor) (inv : Invocation)
    (ms c : Nat) : (execute_operation t i op inv ms c).1.operation = op.name := by
  cases inv <;> rfl

theorem execute_operation_fst_irrel (t t' i i' c c' : Nat) (op : OpDescriptor)
    (inv : Invocation) (ms : Nat) :
    (execute_operation t i op inv ms c).1 = (execute_operation t' i' op inv ms c').1 := by
  cases inv <;> rfl

theorem execute_operation_events_filterMap (t i : Nat) (op : OpDescriptor)
    (inv : Invocation) (ms c : Nat) :
    (execute_operation t i op inv ms c).2.1.filterMap eventOperation = [op.name, op.name] := by
  cases inv <;> rfl

theorem execute_operation_error_iff (t i : Nat) (op : OpDescriptor) (inv : Invocation)
    (ms c : Nat) :
    ((execute_operation t i op inv ms c).1.error.isSome
      == !(execute_operation t i op inv ms c).1.success) = true := by
  cases inv with
  | respond status body =>
      cases h : status == 200 <;> simp [execute_operation, h]
  | raise e => rfl

theorem run_catalog_results_map (env : Nat → Invocation × Nat) (total : Nat)
    (ops : List OpDescriptor) : ∀ (index completed : Nat),
    (run_catalog env total ops index completed).1.map ResultEntry.operation
      = ops.map OpDescriptor.name := by
  induction ops with
  | nil => intro index completed; rfl
  | cons op rest ih =>
      intro index completed
      simp only [run_catalog, List.map_cons, execute_operation_fst_operation, ih]

theorem run_catalog_events_filterMap (env : Nat → Invocation × Nat) (total : Nat)
    (ops : List OpDescriptor) : ∀ (index completed : Nat),
    (run_catalog env total ops index completed).2.filterMap eventOperation
      = ops.flatMap (fun op => [op.name, op.name]) := by
  induction ops with
  | nil => intro index completed; rfl
  | cons op rest ih =>
      intro index completed
      simp only [run_catalog, List.flatMap_cons, List.filterMap_append,
        execute_operation_events_filterMap, ih]

theorem run_catalog_getElem? (env : Nat → Invocation × Nat) (total : Nat)
    (ops : List OpDescriptor) : ∀ (index completed j : Nat) (hj : j < ops.length),
    (run_catalog env total ops index completed).1[j]?
      = some (execute_operation total (index + j)
          (ops.get ⟨j, hj⟩) (env (index + j)).1 (env (index + j)).2 0).1 := by
  induction ops with
  | nil => intro index completed j hj; exact absurd hj (Nat.not_lt_zero j)
  | cons op rest ih =>
      intro index completed j hj
      cases j with
      | zero =>
          simp only [run_catalog, List.getElem?_cons_zero, Nat.add_zero, List.get]
          exact congrArg some (execute_operation_fst_irrel _ _ _ _ _ _ _ _ _)
      | succ j =>
          simp only [run_catalog, List.getElem?_cons_succ, List.get]
          have hidx : index + 1 + j = index + (j + 1) := by omega
          rw [ih (index + 1) _ j (Nat.lt_of_succ_lt_succ hj), hidx]

theorem run_catalog_all_error_iff (env : Nat → Invocation × Nat) (total : Nat)
    (ops : List OpDescriptor) : ∀ (index completed : Nat),
    ((run_catalog env total ops index completed).1.all
      fun r => r.error.isSome == !r.success) = true := by
  induction ops with
  | nil => intro index completed; rfl
  | cons op rest ih =>
      intro index completed
      simp only [run_catalog, List.all_cons, execute_operation_error_iff, ih,
        Bool.and_self]

/-! ### Claim theorems -/

/-- Claim C1: for every catalog, the sequential executor (`run_all_operations`)
produces exactly one Execution Result per descriptor, appended to the result list in
exactly catalog order (the result names equal the catalog names position by position),
and the progress events referring to operation *i* are emitted strictly before those
referring to operation *i+1* (the per-event operation labels, in emission order, are
the catalog names each repeated twice: `operation_start` then `operation_complete`).
Dispatch is sequential by construction: the loop is modelled — as the source executes
it — as a one-at-a-time recursion over the catalog, with no parallel branch. -/
theorem run_all_one_result_per_descriptor_in_order (ops : List OpDescriptor)
    (clearOutcome : Except String Json) (env : Nat → Invocation × Nat) (t : Nat) :
    (run_all_operations ops clearOutcome env t).results.map ResultEntry.operation
      = ops.map OpDescriptor.name
    ∧ (run_all_operations ops clearOutcome env t).events.filterMap eventOperation
      = ops.flatMap (fun op => [op.name, op.name]) := by
  constructor
  · exact run_catalog_results_map env ops.length ops 1 0
  · show (ProgressEvent.start _ _ :: ((run_catalog env ops.length ops 1 0).2
        ++ [ProgressEvent.complete _ _])).filterMap eventOperation = _
    rw [List.filterMap_cons, List.filterMap_append]
    simp [eventOperation, run_catalog_events_filterMap]

/-- Claim C2 (code bug): the claim says a successfully completing operation's Execution
Result carries the operation's reported result payload.  It does not: every endpoint
reports its payload under the `data` key of the `{"success": ..., "data": ...}`
envelope (`api_insert_one`), but `execute_operation` reads `result_data.get('result')`,
a key no endpoint writes — so for every operation and every reported payload `r`, the
recorded `result` field is null, although `success=true` and the elapsed time are
recorded as claimed. -/
theorem success_result_payload_is_always_null (total index : Nat) (op : OpDescriptor)
    (r : Json) (ms completed : Nat) :
    (execute_operation total index op
        (Invocation.respond (api_insert_one (Except.ok r)).1 (api_insert_one (Except.ok r)).2)
        ms completed).1
      = ⟨op.name, true, none, none, ms⟩ := rfl

/-- Claim C3 counterexample: the catalog does not obey the ordering constraints as
claimed.  Concretely, `distinct` (non-structural) sits at position 31, after all six
index operations, and `bulk_write` (non-structural) sits at position 33, after
`rename` — so non-structural operations do not all precede structural ones, and
`rename` is not terminal-except-drop. -/
theorem catalog_violates_claimed_ordering :
    catalog_obeys_claimed_constraints catalog_names = false := by decide

/-- Claim C3 (amended): the ordering constraints the catalog actually obeys:
non-structural operations other than `distinct` and `bulk_write` all precede the
structural ones; `distinct` comes after the index operations and before `rename`;
index creation precedes index removal; all index operations precede `rename`;
`rename` precedes `drop`; the only operations after `rename` are `bulk_write` and
`drop`; and `drop` is last. -/
theorem catalog_ordering_as_implemented :
    catalog_obeys_actual_constraints catalog_names = true := by decide

/-- Claim C4 counterexample: the catalog does not cover all 35 supported operations.
It has 33 entries, while `/api/operations` hard-codes a total of 35; in particular
`group` is an advertised supported operation with no catalog entry (the source skips
it as unsupported by modern MongoDB). -/
theorem catalog_not_35_operations :
    ("group" ∈ supported_operation_names ∧ "group" ∉ catalog_names)
    ∧ catalog_names.length = 33 ∧ list_operations_total = 35 := by decide

/-- Claim C4 (amended): the catalog contains exactly one entry per operation name with
no duplicates; it has 33 entries covering every operation advertised by
`/api/operations` except `group` (and every catalog name is an advertised one), while
the endpoint advertises 34 names and hard-codes a total of 35. -/
theorem catalog_nodup_covers_33_of_advertised :
    catalog_names.Nodup
    ∧ catalog_names.length = 33
    ∧ supported_operation_names.length = 34
    ∧ (supported_operation_names.all fun n => n == "group" || catalog_names.contains n) = true
    ∧ (catalog_names.all fun n => supported_operation_names.contains n) = true := by decide

/-- Claim C5: for every run, the Run Summary computed after the last descriptor
satisfies `successful + failed = total_operations = length(results)` — `successful`
counts the results with `success=true` and `failed` is defined as the rest. -/
theorem run_summary_invariant (ops : List OpDescriptor) (clearOutcome : Except String Json)
    (env : Nat → Invocation × Nat) (t : Nat) :
    (run_all_operations ops clearOutcome env t).summary.successful
      + (run_all_operations ops clearOutcome env t).summary.failed
      = (run_all_operations ops clearOutcome env t).summary.total_operations
    ∧ (run_all_operations ops clearOutcome env t).summary.total_operations
      = (run_all_operations ops clearOutcome env t).results.length := by
  refine ⟨?_, rfl⟩
  exact Nat.add_sub_cancel' (List.length_filter_le _ _)

/-- Claim C6: a failing operation at position *j* (here a raised fault — collaborator
errors are likewise contained, see C9) does not prevent the operations after it from
executing: with the invocation at 1-based index `j+1` forced to raise, the run still
produces one result per descriptor in catalog order, and position *j* records a
contained failed entry carrying the fault, never re-raised.  (`execute_operation`
returns normally on every path, so no per-operation error can abort the loop.) -/
theorem failing_operation_does_not_abort_run (ops : List OpDescriptor)
    (clearOutcome : Except String Json) (env : Nat → Invocation × Nat)
    (t ms j : Nat) (e : String) (hj : j < ops.length) :
    (run_all_operations ops clearOutcome
        (fun i => if i = j + 1 then (Invocation.raise e, ms) else env i) t).results.map
        ResultEntry.operation = ops.map OpDescriptor.name
    ∧ (run_all_operations ops clearOutcome
        (fun i => if i = j + 1 then (Invocation.raise e, ms) else env i) t).results[j]?
      = some ⟨(ops.get ⟨j, hj⟩).name, false, none, some (Json.str e), ms⟩ := by
  constructor
  · exact run_catalog_results_map _ ops.length ops 1 0
  · have h := run_catalog_getElem?
        (fun i => if i = j + 1 then (Invocation.raise e, ms) else env i)
        ops.length ops 1 0 j hj
    have h1 : 1 + j = j + 1 := Nat.add_comm 1 j
    rw [h1] at h
    simp only [if_pos rfl] at h
    exact h

/-- Witness for C6 at a concrete input: the real catalog with its first operation
forced to raise. -/
theorem failing_operation_does_not_abort_run_witness :
    0 < test_operations.length
    ∧ ((run_all_operations test_operations (Except.ok Json.null)
          (fun i => if i = 0 + 1 then (Invocation.raise "connection refused", 5)
                    else (Invocation.respond 200 [], 1)) 0).results.map
          ResultEntry.operation = test_operations.map OpDescriptor.name
        ∧ (run_all_operations test_operations (Except.ok Json.null)
            (fun i => if i = 0 + 1 then (Invocation.raise "connection refused", 5)
                      else (Invocation.respond 200 [], 1)) 0).results[0]?
          = some ⟨(test_operations.get ⟨0, by decide⟩).name, false, none,
              some (Json.str "connection refused"), 5⟩) :=
  ⟨by decide, failing_operation_does_not_abort_run test_operations (Except.ok Json.null)
      (fun _ => (Invocation.respond 200 [], 1)) 0 5 0 "connection refused" (by decide)⟩

/-- Claim C7: the pre-run clear step is best-effort — a failing clear produces exactly
the same run as a successful one (the `except: pass` discards the outcome), and the
run still proceeds and produces a full Execution Result list, one entry per
descriptor. -/
theorem clear_failure_is_ignored (ops : List OpDescriptor) (e : String) (j : Json)
    (env : Nat → Invocation × Nat) (t : Nat) :
    run_all_operations ops (Except.error e) env t = run_all_operations ops (Except.ok j) env t
    ∧ (run_all_operations ops (Except.error e) env t).results.length = ops.length := by
  refine ⟨rfl, ?_⟩
  have h := congrArg List.length (run_catalog_results_map env ops.length ops 1 0)
  simpa using h

/-- Claim C8 counterexample: an operation that fails because the collaborator reports
an error (an HTTP 500 response) produces a failed Execution Result preserving the full
error string, but its `operation_complete` event carries no error at all — neither an
`error` field nor any error text in the message — contradicting the claim that every
failure's completion event carries a truncated error message. -/
theorem http_failure_event_lacks_error_message :
    ((execute_operation 33 20
        ⟨"count", "/api/count", Json.obj [("filter", Json.obj [])]⟩
        (Invocation.respond 500
          [("success", Json.bool false), ("error", Json.str "database down")])
        7 19).1.success = false)
    ∧ ((execute_operation 33 20
        ⟨"count", "/api/count", Json.obj [("filter", Json.obj [])]⟩
        (Invocation.respond 500
          [("success", Json.bool false), ("error", Json.str "database down")])
        7 19).1.error = some (Json.str "database down"))
    ∧ ((execute_operation 33 20
        ⟨"count", "/api/count", Json.obj [("filter", Json.obj [])]⟩
        (Invocation.respond 500
          [("success", Json.bool false), ("error", Json.str "database down")])
        7 19).2.1
      = [ProgressEvent.operation_start "count" 20 33 "Executing count...",
         ProgressEvent.operation_complete "count" false 20 33 7 none
           "✗ count completed in 7ms"]) :=
  ⟨rfl, rfl, rfl⟩

/-- Claim C8 (amended): for every operation, an `operation_complete` event is emitted
immediately after its Execution Result is produced (it closes the operation's event
block), carrying the result's success flag and elapsed time; when the invocation
raises a fault the event carries the error and a message with the error truncated to
50 characters, and the full fault string is preserved in the Execution Result — but
when the failure is an error response from the endpoint, the event carries no error
message (the full error is still preserved internally, see the counterexample). -/
theorem operation_complete_event_contents (total index : Nat) (op : OpDescriptor)
    (inv : Invocation) (ms completed : Nat) :
    (execute_operation total index op inv ms completed).2.1
      = [ProgressEvent.operation_start op.name index total
           ("Executing " ++ op.name ++ "..."),
         ProgressEvent.operation_complete op.name
           (execute_operation total index op inv ms completed).1.success
           (completed + 1) total
           (execute_operation total index op inv ms completed).1.execution_time_ms
           (match inv with
            | Invocation.raise e => some e
            | Invocation.respond _ _ => none)
           (match inv with
            | Invocation.raise e => "✗ " ++ op.name ++ " failed: " ++ e.take 50
            | Invocation.respond status _ =>
                (if status == 200 then "✓" else "✗") ++ " " ++ op.name ++
                  " completed in " ++ toString ms ++ "ms")]
    ∧ (match inv with
       | Invocation.raise e =>
           (execute_operation total index op inv ms completed).1.error = some (Json.str e)
       | Invocation.respond _ _ => True) := by
  cases inv with
  | respond status body => exact ⟨rfl, trivial⟩
  | raise e => exact ⟨rfl, rfl⟩

/-- Claim C9: every Execution Result produced by the sequential executor carries an
`error` field if and only if its success flag is false. -/
theorem result_error_iff_failure (ops : List OpDescriptor)
    (clearOutcome : Except String Json) (env : Nat → Invocation × Nat) (t : Nat) :
    ((run_all_operations ops clearOutcome env t).results.all
      fun r => r.error.isSome == !r.success) = true :=
  run_catalog_all_error_iff env ops.length ops 1 0

/-- Claim C10: on success, `rename` mutates the process-wide shared collection handle
to the new name — so every subsequent operation, which always acts on the current
handle (`operation_target`), targets the renamed collection — and the `drop` endpoint,
on success, always resets the handle to `test_collection`, whatever the handle's
current name `s` was. -/
theorem rename_and_drop_mutate_shared_handle (s new_name : String) :
    MongoDBOperations.rename ⟨s⟩ new_name (Except.ok ())
      = Except.ok (⟨new_name⟩,
          Json.obj [("operation", Json.str "rename"), ("new_name", Json.str new_name)])
    ∧ (MongoDBOperations.rename ⟨s⟩ new_name (Except.ok ())).map
        (fun p => p.1.operation_target) = Except.ok new_name
    ∧ (api_drop ⟨s⟩ (Except.ok ())).1 = ⟨"test_collection"⟩
    ∧ (api_drop ⟨s⟩ (Except.ok ())).2 = (200, true) :=
  ⟨rfl, rfl, rfl, rfl⟩

end PymongoSuite
